import Mathlib

/-!
Verification of the health-trends evidence pipeline.

Shallow embedding of the repository's core modules:
  * `evidence_scorer.py` — `EvidenceScorer` (counting, component scores,
    adjustments, clamping, grading) over `StudySummary` / `ScoreBreakdown`.
  * `pubmed_scraper.py` — `RelevanceFilter` (whole-word relevance scoring and
    filtering), `PubMedScraper._extract_sample_size` (ordered numeric-context
    patterns), `HealthClaimSearcher._parse_claim`.
  * `batch_scrape.py` — `get_search_terms_for_claim`, the trend-level
    average score and trend grade table of `scrape_trend`.

Python floats are modelled as exact rationals (`ℚ`); all constants involved
are small decimals, and none of the verified properties depends on binary
rounding.  Python text is modelled as `List Char` (ASCII lowering) where
pattern matching matters, and as `String` for opaque labels.
-/

/-! ## Data model (`evidence_scorer.py`) -/

/-- `StudyType` enum from `evidence_scorer.py`. -/
inductive StudyType where
  | meta_analysis
  | systematic_review
  | rct
  | clinical_trial
  | observational
  | case_study
  | animal
  | in_vitro
  | review
  | unknown
deriving Repr, DecidableEq

/-- `StudySummary` dataclass.  `supports_claim` is an optional string that the
scorer compares against the literals used in the source. -/
structure StudySummary where
  study_type : StudyType
  is_human : Bool
  sample_size : Option Int := none
  publication_year : Option Int := none
  supports_claim : Option String := none
deriving Repr, DecidableEq

/-- `ScoreBreakdown` dataclass with the Python defaults. -/
structure ScoreBreakdown where
  total_studies : Nat := 0
  human_rcts : Nat := 0
  meta_analyses : Nat := 0
  human_other : Nat := 0
  animal_studies : Nat := 0
  in_vitro_studies : Nat := 0
  avg_sample_size : Option ℚ := none
  largest_sample : Option Int := none
  most_recent_year : Option Int := none
  years_since_last_study : Option Int := none
  supporting_studies : Nat := 0
  contradicting_studies : Nat := 0
  mixed_studies : Nat := 0
  consistency_ratio : Option ℚ := none
  quantity_score : ℚ := 0
  quality_score : ℚ := 0
  consistency_score : ℚ := 0
  recency_score : ℚ := 0
  raw_score : ℚ := 0
  final_score : ℚ := 0
  grade : String := "F"
  penalties : List String := []
  bonuses : List String := []
deriving Repr, DecidableEq

/-! ## `EvidenceScorer` -/

/-- `STUDY_TYPE_WEIGHTS` table. -/
def STUDY_TYPE_WEIGHTS : StudyType → ℚ
  | .meta_analysis => 10
  | .systematic_review => 8
  | .rct => 8
  | .clinical_trial => 6
  | .observational => 4
  | .case_study => 2
  | .animal => 2
  | .in_vitro => 1
  | .review => 1
  | .unknown => 0.5

/-- One iteration of the `_count_studies` loop: the `if`/`elif` chain updating
the per-type counters plus the supports/contradicts/mixed tallies. -/
def countStep (b : ScoreBreakdown) (s : StudySummary) : ScoreBreakdown :=
  let b :=
    if s.study_type = .meta_analysis then
      { b with meta_analyses := b.meta_analyses + 1 }
    else if s.study_type = .rct ∧ s.is_human then
      { b with human_rcts := b.human_rcts + 1 }
    else if s.is_human then
      { b with human_other := b.human_other + 1 }
    else if s.study_type = .animal then
      { b with animal_studies := b.animal_studies + 1 }
    else if s.study_type = .in_vitro then
      { b with in_vitro_studies := b.in_vitro_studies + 1 }
    else b
  if s.supports_claim = some "yes" then
    { b with supporting_studies := b.supporting_studies + 1 }
  else if s.supports_claim = some "no" then
    { b with contradicting_studies := b.contradicting_studies + 1 }
  else if s.supports_claim = some "mixed" then
    { b with mixed_studies := b.mixed_studies + 1 }
  else b

/-- The `sample_sizes` list collected by `_count_studies`
(`if study.sample_size and study.sample_size > 0`; Python truthiness of
`None`/`0` coincides with the `> 0` test). -/
def collectedSamples (studies : List StudySummary) : List Int :=
  studies.filterMap fun s =>
    match s.sample_size with
    | some n => if 0 < n then some n else none
    | none => none

/-- The `years` list collected by `_count_studies` (`if study.publication_year`
is Python truthiness: `None` and year `0` are both skipped). -/
def collectedYears (studies : List StudySummary) : List Int :=
  studies.filterMap fun s =>
    match s.publication_year with
    | some y => if y ≠ 0 then some y else none
    | none => none

/-- Maximum of a list of integers, used only on nonempty lists (Python `max`). -/
def maxInt (l : List Int) : Int := l.foldl max (l.headD 0)

/-- `EvidenceScorer._count_studies`. -/
def count_studies (current_year : Int) (studies : List StudySummary) : ScoreBreakdown :=
  let b := studies.foldl countStep { total_studies := studies.length }
  let sample_sizes := collectedSamples studies
  let years := collectedYears studies
  let b :=
    if sample_sizes ≠ [] then
      { b with
        avg_sample_size := some ((sample_sizes.map (fun n => (n : ℚ))).sum / sample_sizes.length)
        largest_sample := some (maxInt sample_sizes) }
    else b
  if years ≠ [] then
    { b with
      most_recent_year := some (maxInt years)
      years_since_last_study := some (current_year - maxInt years) }
  else b

/-- The human/animal quantity step function of `_score_quantity`, as a function
of the human-study count and the animal + in-vitro count. -/
def qstep (h aiv : Nat) : ℚ :=
  if h = 0 then
    if aiv = 0 then 0
    else min 4 ((aiv : ℚ) * 0.5)
  else if 10 ≤ h then 10
  else if 5 ≤ h then 8 + ((h : ℚ) - 5) * 0.4
  else if 3 ≤ h then 6 + ((h : ℚ) - 3) * 1
  else (h : ℚ) * 3

/-- `EvidenceScorer._score_quantity`. -/
def score_quantity (b : ScoreBreakdown) : ℚ :=
  qstep (b.human_rcts + b.human_other + b.meta_analyses)
    (b.animal_studies + b.in_vitro_studies)

/-- Per-study weight computed inside the `_score_quality` loop.  A sample size
of `0` is falsy in Python and skips the block; it also fails both `>= 100` and
`>= 50`, so the plain comparisons are equivalent. -/
def qualityWeight (s : StudySummary) : ℚ :=
  let w := STUDY_TYPE_WEIGHTS s.study_type
  let w := if s.is_human then w * 1.5 else w
  match s.sample_size with
  | some n => if 100 ≤ n then w * 1.3 else if 50 ≤ n then w * 1.1 else w
  | none => w

/-- `EvidenceScorer._score_quality`: returns the score together with the bonus
messages appended to `breakdown.bonuses`, in evaluation order. -/
def score_quality (studies : List StudySummary) (b : ScoreBreakdown) : ℚ × List String :=
  if studies = [] then (0, [])
  else
    let weighted_sum := (studies.map qualityWeight).sum
    let total_weight : ℚ := studies.length
    let avg_quality := if 0 < total_weight then weighted_sum / total_weight else 0
    let normalized := min 10 (avg_quality * 0.8)
    let (normalized, bon) :=
      if 1 ≤ b.meta_analyses then
        (min 10 (normalized + 1), [toString b.meta_analyses ++ " meta-analysis"])
      else (normalized, [])
    if 3 ≤ b.human_rcts then
      (min 10 (normalized + 0.5), bon ++ [toString b.human_rcts ++ " human RCTs"])
    else (normalized, bon)

/-- `EvidenceScorer._score_consistency`: returns the score, the consistency
ratio written back to the breakdown, and the penalty messages appended. -/
def score_consistency (b : ScoreBreakdown) : ℚ × Option ℚ × List String :=
  let total_evaluated := b.supporting_studies + b.contradicting_studies + b.mixed_studies
  if total_evaluated = 0 then (5, none, [])
  else
    let ratio : ℚ := (b.supporting_studies : ℚ) / (total_evaluated : ℚ)
    let base_score := ratio * 10
    if 0 < b.contradicting_studies then
      let penalty := min 3 ((b.contradicting_studies : ℚ) * 0.5)
      (max 0 (base_score - penalty), some ratio,
        [toString b.contradicting_studies ++ " contradicting studies"])
    else (max 0 base_score, some ratio, [])

/-- `EvidenceScorer._score_recency`: returns the score and the penalty messages
appended.  In the source, the `years <= 15` branch has
`breakdown.penalties.append("Research is 10-15 years old")` placed after an
unconditional `return 4.0`, so that append is dead code and the branch appends
nothing; only the `> 15` branch appends its message. -/
def score_recency (years_since_last_study : Option Int) : ℚ × List String :=
  match years_since_last_study with
  | none => (5, [])
  | some years =>
    if years ≤ 2 then (10, [])
    else if years ≤ 5 then (8, [])
    else if years ≤ 10 then (6, [])
    else if years ≤ 15 then (4, [])
    else (2, ["Research is over 15 years old"])

/-- `EvidenceScorer._apply_adjustments`: returns the adjusted score and the
penalty/bonus messages appended, in evaluation order.  The Python truthiness
tests `if breakdown.avg_sample_size` / `if breakdown.largest_sample` exclude
`None` and `0`. -/
def apply_adjustments (b : ScoreBreakdown) : ℚ × List String × List String :=
  let score := b.raw_score
  let (score, pen) :=
    if b.human_rcts + b.human_other = 0 ∧ b.meta_analyses = 0 then
      (score - 2, ["No human studies"])
    else (score, [])
  let (score, pen) :=
    match b.avg_sample_size with
    | some a => if a ≠ 0 ∧ a < 30 then (score - 1, pen ++ ["Very small sample sizes"]) else (score, pen)
    | none => (score, pen)
  let (score, pen) :=
    if b.total_studies = 1 then (score - 1.5, pen ++ ["Only one study exists"])
    else (score, pen)
  let (score, bon) :=
    match b.largest_sample with
    | some n =>
      if n ≠ 0 ∧ 200 ≤ n ∧ 0 < b.human_rcts then
        (score + 0.5, ["Large RCT (n=" ++ toString n ++ ")"])
      else (score, [])
    | none => (score, [])
  if 3 ≤ b.supporting_studies ∧ b.contradicting_studies = 0 then
    (score + 0.5, pen, bon ++ ["Consistent replication"])
  else (score, pen, bon)

/-- `EvidenceScorer._score_to_grade`. -/
def score_to_grade (score : ℚ) : String :=
  if 9.5 ≤ score then "A+"
  else if 9 ≤ score then "A"
  else if 8.5 ≤ score then "A-"
  else if 8 ≤ score then "B+"
  else if 7 ≤ score then "B"
  else if 6 ≤ score then "B-"
  else if 5 ≤ score then "C+"
  else if 4 ≤ score then "C"
  else if 3 ≤ score then "C-"
  else if 2 ≤ score then "D"
  else "F"

/-- `EvidenceScorer.WEIGHTS` and the weighted raw score of `score_claim`. -/
def rawScoreOf (quantity quality consistency recency : ℚ) : ℚ :=
  quantity * 0.25 + quality * 0.40 + consistency * 0.20 + recency * 0.15

/-- `EvidenceScorer.score_claim` (`current_year` is the constructor argument,
default 2025). -/
def score_claim (current_year : Int) (studies : List StudySummary) : ScoreBreakdown :=
  if studies = [] then
    { grade := "F", penalties := ["No studies found"] }
  else
    let b := count_studies current_year studies
    let quantity := score_quantity b
    let (quality, qualBon) := score_quality studies b
    let (consistency, ratio, consPen) := score_consistency b
    let (recency, recPen) := score_recency b.years_since_last_study
    let raw := rawScoreOf quantity quality consistency recency
    let b := { b with
      quantity_score := quantity
      quality_score := quality
      consistency_score := consistency
      recency_score := recency
      consistency_ratio := ratio
      raw_score := raw
      bonuses := b.bonuses ++ qualBon
      penalties := b.penalties ++ consPen ++ recPen }
    let (adjusted, adjPen, adjBon) := apply_adjustments b
    let final := max 0 (min 10 adjusted)
    { b with
      final_score := final
      grade := score_to_grade final
      penalties := b.penalties ++ adjPen
      bonuses := b.bonuses ++ adjBon }

/-! ## `RelevanceFilter` (`pubmed_scraper.py`)

Whole-word matching: the filter compiles `r'\b' + re.escape(term) + r'\b'`
per term, so the term is a literal and `\b` is the regex word boundary.  We
model text as `List Char` and Python `str.lower` as ASCII `Char.toLower`. -/

/-- Python `str.lower` over the ASCII range. -/
def lowerL (s : List Char) : List Char := s.map Char.toLower

/-- Regex word character `\w` over ASCII: letters, digits, underscore. -/
def isWordChar (c : Char) : Bool := c.isAlphanum || c = '_'

/-- `\b`: a word boundary holds at position `i` of `s` (between `s[i-1]` and
`s[i]`) iff exactly one side is a word character, positions outside the
string counting as non-word. -/
def boundaryAt (s : List Char) (i : Nat) : Bool :=
  let before := if i = 0 then false else
    match s.get? (i - 1) with
    | some c => isWordChar c
    | none => false
  let after :=
    match s.get? i with
    | some c => isWordChar c
    | none => false
  before != after

/-- The regex `\b<term>\b` (term literal) matches `s` at position `i`. -/
def wwMatchAt (t s : List Char) (i : Nat) : Bool :=
  ((s.drop i).take t.length == t) && boundaryAt s i && boundaryAt s (i + t.length)

/-- `re.search` of `\b<term>\b` over `s`: some position matches. -/
def searchWW (t s : List Char) : Bool :=
  (List.range (s.length + 1)).any fun i => wwMatchAt t s i

/-- Fueled scan for `len(re.findall(...))`: non-overlapping occurrences of
`\b<term>\b`, scanning left to right and restarting after each match.  The
fuel `s.length + 1` covers every scan position. -/
def countWWAux (t s : List Char) : Nat → Nat → Nat
  | _, 0 => 0
  | i, fuel + 1 =>
    if i ≤ s.length then
      if wwMatchAt t s i then 1 + countWWAux t s (i + max 1 t.length) fuel
      else countWWAux t s (i + 1) fuel
    else 0

/-- Number of non-overlapping whole-word occurrences of `t` in `s`. -/
def countWW (t s : List Char) : Nat := countWWAux t s 0 (s.length + 1)

/-- `PubMedStudy` dataclass (the `publication_date` datetime is omitted; no
verified property reads it).  `title`, `abstract` and `mesh_terms` carry the
text the relevance filter scans. -/
structure PubMedStudy where
  pubmed_id : String
  title : List Char
  abstract : Option (List Char) := none
  authors : List String := []
  journal : Option String := none
  publication_year : Option Int := none
  doi : Option String := none
  study_type : Option String := none
  is_human_study : Bool := false
  sample_size : Option Int := none
  keywords : List String := []
  mesh_terms : List (List Char) := []
  relevance_score : Option ℚ := none
  relevance_matched_terms : List (List Char) := []
deriving Repr, DecidableEq

/-- One iteration of the term loop of `RelevanceFilter._score_study`:
accumulates the score and the matched-terms list for one search term. -/
def scoreTermStep (title abstract mesh : List Char)
    (acc : ℚ × List (List Char)) (term : List Char) : ℚ × List (List Char) :=
  let tMatch := searchWW term title
  let score := if tMatch then acc.1 + 0.5 else acc.1
  let abstract_matches := countWW term abstract
  let score := if 0 < abstract_matches then
      score + min (0.3 * (abstract_matches : ℚ)) 0.6
    else score
  let mMatch := searchWW term mesh
  let score := if mMatch then score + 0.2 else score
  if tMatch ∨ 0 < abstract_matches ∨ mMatch then (score, acc.2 ++ [term])
  else (score, acc.2)

/-- `RelevanceFilter._score_study`: returns `(score, matched_terms)`.  The
total is capped at 1.0 and forced to 0 when no term matched anywhere. -/
def score_study (study : PubMedStudy) (search_terms : List (List Char)) :
    ℚ × List (List Char) :=
  let title := lowerL study.title
  let abstract := lowerL (study.abstract.getD [])
  let mesh := lowerL (List.intercalate [' '] study.mesh_terms)
  let acc := search_terms.foldl (scoreTermStep title abstract mesh) (0, [])
  let score := min acc.1 1
  let score := if acc.2 = [] then 0 else score
  (score, acc.2)

/-- `RelevanceFilter._build_search_terms`: the set of lowercased name and
alias terms, modelled as a deduplicated list (the score is a sum over the
set's elements, so set iteration order is irrelevant). -/
def build_search_terms (supplement_name : List Char)
    (aliases : List (List Char)) : List (List Char) :=
  (lowerL supplement_name :: aliases.map lowerL).dedup

/-- `RelevanceFilter.filter_studies`: keeps exactly the studies whose score
reaches `min_relevance_score`, attaching the relevance metadata to retained
records, preserving input order. -/
def filter_studies (min_relevance_score : ℚ) (studies : List PubMedStudy)
    (supplement_name : List Char) (aliases : List (List Char)) :
    List PubMedStudy :=
  let search_terms := build_search_terms supplement_name aliases
  studies.filterMap fun study =>
    let res := score_study study search_terms
    if min_relevance_score ≤ res.1 then
      some { study with
        relevance_score := some res.1
        relevance_matched_terms := res.2 }
    else none

/-- The per-term relevance contribution exactly as the specification words
it: +0.5 for a whole-word title match, +0.3 per whole-word abstract
occurrence capped at +0.6 for the term, +0.2 for a whole-word MeSH match. -/
def termContrib (title abstract mesh : List Char) (t : List Char) : ℚ :=
  (if searchWW t title then (0.5 : ℚ) else 0) +
  (if 0 < countWW t abstract then
      min (0.3 * (countWW t abstract : ℚ)) 0.6
    else 0) +
  (if searchWW t mesh then (0.2 : ℚ) else 0)

/-- The spec's per-term contribution for a study record: `termContrib` over
the record's lowered title, abstract and joined MeSH terms. -/
def specTermContrib (study : PubMedStudy) (t : List Char) : ℚ :=
  termContrib (lowerL study.title) (lowerL (study.abstract.getD []))
    (lowerL (List.intercalate [' '] study.mesh_terms)) t

/-- Concrete no-match study record used for the C3 counterexample. -/
def stNoMatch : PubMedStudy :=
  { pubmed_id := "1", title := "alpha beta".toList }

/-- Concrete search name that matches nothing in `stNoMatch`. -/
def nameNoMatch : List Char := "gamma".toList

/-! ## `PubMedScraper._extract_sample_size`

The four ordered regex patterns of the source are modelled as deterministic
matchers over `List Char`.  Each pattern starts with a literal/char-class
whose continuation classes are pairwise disjoint (digits vs whitespace vs
letters), so greedy matching with the explicit alternation fallbacks below
reproduces Python `re` backtracking semantics exactly. -/

/-- Python regex `\s` over ASCII: space, tab, newline, carriage return,
vertical tab, form feed. -/
def isSpaceC (c : Char) : Bool :=
  c = ' ' || c = '\t' || c = '\n' || c = '\r' ||
    c = Char.ofNat 11 || c = Char.ofNat 12

/-- Greedy `\s*`: drop the maximal whitespace run. -/
def wsStar : List Char → List Char
  | [] => []
  | c :: rest => if isSpaceC c then wsStar rest else c :: rest

/-- Greedy `\s+`: at least one whitespace character, then the rest. -/
def wsPlus (s : List Char) : Option (List Char) :=
  match s with
  | c :: rest => if isSpaceC c then some (wsStar rest) else none
  | [] => none

/-- Split the maximal digit run from the rest. -/
def digitRun : List Char → List Char × List Char
  | [] => ([], [])
  | c :: rest =>
    if c.isDigit then
      let (ds, r) := digitRun rest
      (c :: ds, r)
    else ([], c :: rest)

/-- Numeric value of a digit string (Python `int`). -/
def natOfDigits (ds : List Char) : Nat :=
  ds.foldl (fun acc c => acc * 10 + (c.toNat - '0'.toNat)) 0

/-- Greedy `(\d+)` capture: value and rest, or `none` if no digit. -/
def digitsPlus (s : List Char) : Option (Nat × List Char) :=
  let (ds, r) := digitRun s
  if ds = [] then none else some (natOfDigits ds, r)

/-- Literal match: the rest after the literal, or `none`. -/
def litM : List Char → List Char → Option (List Char)
  | [], s => some s
  | _ :: _, [] => none
  | c :: cs, d :: ds => if c = d then litM cs ds else none

/-- Ordered word alternation with empty continuation: rest after the first
alternative that matches at the current position. -/
def wordAlt (ws : List (List Char)) (s : List Char) : Option (List Char) :=
  match ws with
  | [] => none
  | w :: rest =>
    match litM w s with
    | some r => some r
    | none => wordAlt rest s

/-- Ordered alternation with a continuation (regex backtracking: if an
alternative matches but its continuation fails, the next alternative is
tried at the same position). -/
def altFirst (alts : List (List Char))
    (k : List Char → Option (Nat × List Char)) (s : List Char) :
    Option (Nat × List Char) :=
  match alts with
  | [] => none
  | a :: rest =>
    match litM a s with
    | some r =>
      match k r with
      | some res => some res
      | none => altFirst rest k s
    | none => altFirst rest k s

/-- Pattern `n\s*=\s*(\d+)` at the current position. -/
def pat1 (s : List Char) : Option (Nat × List Char) :=
  match s with
  | c :: rest =>
    if c = 'n' then
      match wsStar rest with
      | '=' :: r2 => digitsPlus (wsStar r2)
      | _ => none
    else none
  | [] => none

/-- Word alternatives of the second pattern. -/
def pat2words : List (List Char) :=
  ["participants".toList, "subjects".toList, "patients".toList,
   "volunteers".toList, "individuals".toList, "adults".toList,
   "men".toList, "women".toList]

/-- Pattern `(\d+)\s+(?:participants|subjects|patients|volunteers|individuals|adults|men|women)`. -/
def pat2 (s : List Char) : Option (Nat × List Char) :=
  match digitsPlus s with
  | some (n, r1) =>
    match wsPlus r1 with
    | some r2 =>
      match wordAlt pat2words r2 with
      | some r3 => some (n, r3)
      | none => none
    | none => none
  | none => none

/-- Continuation `\s+(?:of\s+)?(\d+)` of the third pattern; the optional
`of\s+` group is tried greedily and given up if the digits fail. -/
def pat3after (r1 : List Char) : Option (Nat × List Char) :=
  match wsPlus r1 with
  | some r2 =>
    match litM ("of".toList) r2 with
    | some r3 =>
      match wsPlus r3 with
      | some r4 =>
        match digitsPlus r4 with
        | some res => some res
        | none => digitsPlus r2
      | none => digitsPlus r2
    | none => digitsPlus r2
  | none => none

/-- Pattern `(?:sample|sample size|enrolled|recruited)\s+(?:of\s+)?(\d+)`
(Python tries the alternatives in written order, backtracking into the
alternation when the continuation fails). -/
def pat3 (s : List Char) : Option (Nat × List Char) :=
  altFirst ["sample".toList, "sample size".toList, "enrolled".toList,
    "recruited".toList] pat3after s

/-- Pattern `(\d+)\s+(?:were|was)\s+(?:enrolled|recruited|randomized)`. -/
def pat4 (s : List Char) : Option (Nat × List Char) :=
  match digitsPlus s with
  | some (n, r1) =>
    match wsPlus r1 with
    | some r2 =>
      match wordAlt ["were".toList, "was".toList] r2 with
      | some r3 =>
        match wsPlus r3 with
        | some r4 =>
          match wordAlt ["enrolled".toList, "recruited".toList,
              "randomized".toList] r4 with
          | some r5 => some (n, r5)
          | none => none
        | none => none
      | none => none
    | none => none
  | none => none

/-- Fueled `re.findall` scan: non-overlapping matches left to right,
restarting after each match (every pattern consumes at least one character;
the guard is only for fuel safety).  Returns the captured group values. -/
def scanNums (m : List Char → Option (Nat × List Char)) :
    Nat → List Char → List Nat
  | 0, _ => []
  | fuel + 1, s =>
    match m s with
    | some (v, rest) =>
      v :: scanNums m fuel (if rest.length < s.length then rest else s.drop 1)
    | none =>
      match s with
      | [] => []
      | _ :: t => scanNums m fuel t

/-- All captured values of `re.findall(pattern, s)`. -/
def findAllP (m : List Char → Option (Nat × List Char)) (s : List Char) :
    List Nat :=
  scanNums m (s.length + 1) s

/-- Maximum of a list of naturals; agrees with Python `max` on the nonempty
lists of positive numbers it is applied to. -/
def maxNat (l : List Nat) : Nat := l.foldl max 0

/-- The ordered pattern list of `_extract_sample_size`. -/
def samplePatterns : List (List Char → Option (Nat × List Char)) :=
  [pat1, pat2, pat3, pat4]

/-- The pattern loop of `_extract_sample_size`: per pattern, if `findall`
matched, keep the integers in `(5, 100000)` and return their maximum when
any survive; otherwise fall through to the next pattern. -/
def extractLoop (abstractLower : List Char) :
    List (List Char → Option (Nat × List Char)) → Option Nat
  | [] => none
  | p :: ps =>
    let found := findAllP p abstractLower
    if found ≠ [] then
      let numbers := found.filter fun n => decide (5 < n) && decide (n < 100000)
      if numbers ≠ [] then some (maxNat numbers)
      else extractLoop abstractLower ps
    else extractLoop abstractLower ps

/-- `PubMedScraper._extract_sample_size` (the abstract is lowered once and
scanned with the ordered patterns). -/
def extract_sample_size (abstract : List Char) : Option Nat :=
  extractLoop (lowerL abstract) samplePatterns

/-- The claim's described algorithm, for comparison: collect *all* matched
integers strictly between 5 and 100000 across *all* patterns and return the
maximum of the whole collection if any exist, else null. -/
def extractAllMax (abstract : List Char) : Option Nat :=
  let numbers := (samplePatterns.flatMap fun p => findAllP p (lowerL abstract)).filter
    fun n => decide (5 < n) && decide (n < 100000)
  if numbers = [] then none else some (maxNat numbers)

/-- Concrete abstract separating the source's first-pattern-wins behaviour
from the claim's collect-all-then-max description. -/
def exAbstract : List Char := "n = 10 and 500 participants".toList

/-! ## Query construction (`batch_scrape.py` / `pubmed_scraper.py`) -/

/-- Python `needle in hay` substring test. -/
def isSubstrB (needle hay : List Char) : Bool :=
  (List.range (hay.length + 1)).any fun i => (litM needle (hay.drop i)).isSome

/-- Accumulator-based whitespace split (Python `str.split()` with no
argument: runs of whitespace separate words, no empty words). -/
def splitWSAux : List Char → List Char → List (List Char)
  | cur, [] => if cur = [] then [] else [cur.reverse]
  | cur, c :: rest =>
    if isSpaceC c then
      if cur = [] then splitWSAux [] rest
      else cur.reverse :: splitWSAux [] rest
    else splitWSAux (c :: cur) rest

/-- Python `s.split()`. -/
def splitWS (s : List Char) : List (List Char) := splitWSAux [] s

/-- `CLAIM_SEARCH_TERMS` table of `batch_scrape.py`, in insertion order. -/
def CLAIM_SEARCH_TERMS : List (List Char × List (List Char)) :=
  [("testosterone".toList, ["testosterone".toList, "androgen".toList,
      "luteinizing hormone".toList, "LH".toList]),
   ("cortisol".toList, ["cortisol".toList, "stress hormone".toList,
      "HPA axis".toList]),
   ("anxiety".toList, ["anxiety".toList, "anxiolytic".toList, "GAD".toList]),
   ("stress".toList, ["stress".toList, "psychological stress".toList,
      "cortisol".toList]),
   ("sleep".toList, ["sleep".toList, "insomnia".toList,
      "sleep quality".toList]),
   ("muscle".toList, ["muscle".toList, "strength".toList,
      "hypertrophy".toList, "lean mass".toList]),
   ("cognitive".toList, ["cognitive".toList, "memory".toList,
      "cognition".toList, "brain".toList]),
   ("inflammation".toList, ["inflammation".toList, "inflammatory".toList,
      "CRP".toList, "cytokine".toList]),
   ("blood sugar".toList, ["blood glucose".toList, "glycemic".toList,
      "insulin".toList, "HbA1c".toList]),
   ("skin".toList, ["skin".toList, "collagen".toList, "wrinkles".toList,
      "dermal".toList]),
   ("gut".toList, ["gut".toList, "microbiome".toList, "digestive".toList,
      "intestinal".toList]),
   ("libido".toList, ["libido".toList, "sexual function".toList,
      "erectile".toList]),
   ("energy".toList, ["energy".toList, "fatigue".toList, "ATP".toList,
      "mitochondria".toList]),
   ("recovery".toList, ["recovery".toList, "DOMS".toList,
      "muscle soreness".toList]),
   ("mood".toList, ["mood".toList, "depression".toList,
      "well-being".toList]),
   ("weight".toList, ["weight loss".toList, "body composition".toList,
      "fat mass".toList]),
   ("thyroid".toList, ["thyroid".toList, "T3".toList, "T4".toList,
      "TSH".toList])]

/-- Stop-word set of the fallback in `get_search_terms_for_claim`. -/
def STOP_WORDS : List (List Char) :=
  ["increases".toList, "reduces".toList, "improves".toList,
   "supports".toList, "enhances".toList, "and".toList, "the".toList,
   "for".toList, "with".toList]

/-- The fallback word filter: significant words of the lowered claim — words
longer than 3 characters that are not stop words. -/
def significantWords (claim_text : List Char) : List (List Char) :=
  (splitWS (lowerL claim_text)).filter fun w =>
    !STOP_WORDS.contains w && decide (3 < w.length)

/-- `batch_scrape.get_search_terms_for_claim`: keyword table lookup by
lower-cased substring match, significant-word fallback, capped at 3 terms. -/
def get_search_terms_for_claim (claim_text : List Char) : List (List Char) :=
  let claim_lower := lowerL claim_text
  let terms := CLAIM_SEARCH_TERMS.foldl
    (fun acc kv => if isSubstrB kv.1 claim_lower then acc ++ kv.2 else acc) []
  let terms := if terms = [] then significantWords claim_text else terms
  terms.take 3

/-- `claim_mappings` table of `HealthClaimSearcher._parse_claim`. -/
def claim_mappings : List (List Char × List (List Char)) :=
  [("testosterone".toList, ["testosterone".toList, "androgen".toList,
      "luteinizing hormone".toList]),
   ("anxiety".toList, ["anxiety".toList, "anxiolytic".toList, "GAD".toList,
      "generalized anxiety".toList]),
   ("stress".toList, ["stress".toList, "cortisol".toList, "HPA axis".toList,
      "adaptogen".toList]),
   ("sleep".toList, ["sleep".toList, "insomnia".toList,
      "sleep quality".toList, "PSQI".toList]),
   ("muscle".toList, ["muscle".toList, "lean mass".toList,
      "strength".toList, "hypertrophy".toList]),
   ("cognition".toList, ["cognition".toList, "cognitive".toList,
      "memory".toList, "brain function".toList]),
   ("inflammation".toList, ["inflammation".toList, "inflammatory".toList,
      "cytokine".toList, "CRP".toList]),
   ("energy".toList, ["energy".toList, "fatigue".toList,
      "vitality".toList]),
   ("libido".toList, ["libido".toList, "sexual function".toList,
      "erectile".toList, "aphrodisiac".toList]),
   ("blood sugar".toList, ["blood glucose".toList, "glycemic".toList,
      "HbA1c".toList, "insulin".toList]),
   ("weight".toList, ["weight loss".toList, "body composition".toList,
      "BMI".toList, "obesity".toList])]

/-- `HealthClaimSearcher._parse_claim`: keyword expansion with the raw claim
itself as the fallback (no cap). -/
def parse_claim (claim : List Char) : List (List Char) :=
  let claim_lower := lowerL claim
  let terms := claim_mappings.foldl
    (fun acc kv => if isSubstrB kv.1 claim_lower then acc ++ kv.2 else acc) []
  if terms = [] then [claim] else terms

/-! ## Trend aggregation (`batch_scrape.scrape_trend`) -/

/-- The SQL `AVG(evidence_score) ... WHERE evidence_score IS NOT NULL` over a
trend's claims: arithmetic mean of the non-null scores, null when none. -/
def trend_score (scores : List (Option ℚ)) : Option ℚ :=
  let xs := scores.filterMap id
  if xs = [] then none else some (xs.sum / xs.length)

/-- The trend-level grade table of `scrape_trend`. -/
def trend_grade (avg_score : ℚ) : String :=
  if 9 ≤ avg_score then "A+"
  else if 8 ≤ avg_score then "A"
  else if 7 ≤ avg_score then "B+"
  else if 6 ≤ avg_score then "B"
  else if 5 ≤ avg_score then "C+"
  else if 4 ≤ avg_score then "C"
  else if 3 ≤ avg_score then "D"
  else "F"

/-! ## Theorems -/

/-- **C1.** For every input list of studies (and every configured current
year), the `ScoreBreakdown` returned by `EvidenceScorer.score_claim` has
`final_score` in the closed interval `[0, 10]` — both on the early-return
empty-input path and on the general path, where the raw weighted score plus
adjustments is clamped by `max(0.0, min(10.0, ·))`. -/
theorem score_claim_final_score_in_range (current_year : Int)
    (studies : List StudySummary) :
    0 ≤ (score_claim current_year studies).final_score ∧
      (score_claim current_year studies).final_score ≤ 10 := by
  unfold score_claim
  by_cases h : studies = []
  · simp [h]
  · simp only [if_neg h]
    constructor
    · exact le_max_left 0 _
    · exact max_le (by norm_num) (min_le_left 10 _)

/-- **C2.** For the empty input list, `score_claim` returns the freshly
constructed `ScoreBreakdown` with `final_score = 0.0`, grade `"F"`, penalties
`["No studies found"]`, empty bonuses, and every count, metric and component
score at its zero/default value. -/
theorem score_claim_empty_input (current_year : Int) :
    score_claim current_year [] =
      { grade := "F", penalties := ["No studies found"] } := by
  rfl

/-- **C5.** The claim-level grade is a pure, deterministic function of the
numeric score with exactly the thresholds ≥9.5 A+, ≥9.0 A, ≥8.5 A-, ≥8.0 B+,
≥7.0 B, ≥6.0 B-, ≥5.0 C+, ≥4.0 C, ≥3.0 C-, ≥2.0 D, else F; equal scores
always yield equal grades. -/
theorem score_to_grade_thresholds :
    (∀ s : ℚ,
      (9.5 ≤ s → score_to_grade s = "A+") ∧
      (9 ≤ s ∧ s < 9.5 → score_to_grade s = "A") ∧
      (8.5 ≤ s ∧ s < 9 → score_to_grade s = "A-") ∧
      (8 ≤ s ∧ s < 8.5 → score_to_grade s = "B+") ∧
      (7 ≤ s ∧ s < 8 → score_to_grade s = "B") ∧
      (6 ≤ s ∧ s < 7 → score_to_grade s = "B-") ∧
      (5 ≤ s ∧ s < 6 → score_to_grade s = "C+") ∧
      (4 ≤ s ∧ s < 5 → score_to_grade s = "C") ∧
      (3 ≤ s ∧ s < 4 → score_to_grade s = "C-") ∧
      (2 ≤ s ∧ s < 3 → score_to_grade s = "D") ∧
      (s < 2 → score_to_grade s = "F")) ∧
    (∀ a b : ℚ, a = b → score_to_grade a = score_to_grade b) := by
  constructor
  · intro s
    refine ⟨?_, ?_, ?_, ?_, ?_, ?_, ?_, ?_, ?_, ?_, ?_⟩
    · intro h; unfold score_to_grade; rw [if_pos h]
    · rintro ⟨h1, h2⟩; unfold score_to_grade
      rw [if_neg (by linarith), if_pos h1]
    · rintro ⟨h1, h2⟩; unfold score_to_grade
      rw [if_neg (by linarith), if_neg (by linarith), if_pos h1]
    · rintro ⟨h1, h2⟩; unfold score_to_grade
      rw [if_neg (by linarith), if_neg (by linarith), if_neg (by linarith),
        if_pos h1]
    · rintro ⟨h1, h2⟩; unfold score_to_grade
      rw [if_neg (by linarith), if_neg (by linarith), if_neg (by linarith),
        if_neg (by linarith), if_pos h1]
    · rintro ⟨h1, h2⟩; unfold score_to_grade
      rw [if_neg (by linarith), if_neg (by linarith), if_neg (by linarith),
        if_neg (by linarith), if_neg (by linarith), if_pos h1]
    · rintro ⟨h1, h2⟩; unfold score_to_grade
      rw [if_neg (by linarith), if_neg (by linarith), if_neg (by linarith),
        if_neg (by linarith), if_neg (by linarith), if_neg (by linarith),
        if_pos h1]
    · rintro ⟨h1, h2⟩; unfold score_to_grade
      rw [if_neg (by linarith), if_neg (by linarith), if_neg (by linarith),
        if_neg (by linarith), if_neg (by linarith), if_neg (by linarith),
        if_neg (by linarith), if_pos h1]
    · rintro ⟨h1, h2⟩; unfold score_to_grade
      rw [if_neg (by linarith), if_neg (by linarith), if_neg (by linarith),
        if_neg (by linarith), if_neg (by linarith), if_neg (by linarith),
        if_neg (by linarith), if_neg (by linarith), if_pos h1]
    · rintro ⟨h1, h2⟩; unfold score_to_grade
      rw [if_neg (by linarith), if_neg (by linarith), if_neg (by linarith),
        if_neg (by linarith), if_neg (by linarith), if_neg (by linarith),
        if_neg (by linarith), if_neg (by linarith), if_neg (by linarith),
        if_pos h1]
    · intro h; unfold score_to_grade
      rw [if_neg (by linarith), if_neg (by linarith), if_neg (by linarith),
        if_neg (by linarith), if_neg (by linarith), if_neg (by linarith),
        if_neg (by linarith), if_neg (by linarith), if_neg (by linarith),
        if_neg (by linarith)]
  · intro a b h
    rw [h]

/-- Witness for C5 at concrete scores. -/
theorem score_to_grade_thresholds_witness :
    score_to_grade 9.7 = "A+" ∧ score_to_grade 4.5 = "C" := by
  constructor
  · exact (score_to_grade_thresholds.1 9.7).1 (by norm_num)
  · exact (score_to_grade_thresholds.1 4.5).2.2.2.2.2.2.2.1 ⟨by norm_num, by norm_num⟩

/-- The quantity step function is non-decreasing between consecutive positive
human-study counts. -/
theorem qstep_succ_mono (aiv h : Nat) (h1 : 1 ≤ h) :
    qstep h aiv ≤ qstep (h + 1) aiv := by
  rcases le_or_lt 10 h with hge | hlt
  · simp only [qstep]
    rw [if_neg (by omega), if_pos hge, if_neg (by omega), if_pos (by omega)]
  · interval_cases h <;> norm_num [qstep]

/-- Monotonicity of the quantity step function on positive human counts. -/
theorem qstep_mono_of_pos (aiv : Nat) {h1 h2 : Nat} (hle : h1 ≤ h2)
    (hpos : 1 ≤ h1) : qstep h1 aiv ≤ qstep h2 aiv := by
  induction h2, hle using Nat.le_induction with
  | base => exact le_refl _
  | succ n hn ih => exact le_trans ih (qstep_succ_mono aiv n (le_trans hpos hn))

/-- With at least one human study the quantity step function is at least 3. -/
theorem qstep_lower_bound (aiv h : Nat) (hpos : 1 ≤ h) : 3 ≤ qstep h aiv := by
  rcases le_or_lt 10 h with hge | hlt
  · simp only [qstep]
    rw [if_neg (by omega), if_pos hge]
    norm_num
  · interval_cases h <;> norm_num [qstep]

/-- With no human studies the quantity step function is at most 3 whenever
there are at most 6 animal plus in-vitro studies. -/
theorem qstep_zero_le (aiv : Nat) (haiv : aiv ≤ 6) : qstep 0 aiv ≤ 3 := by
  by_cases h0 : aiv = 0
  · norm_num [qstep, h0]
  · simp only [qstep, if_pos rfl, if_neg h0]
    refine le_trans (min_le_right _ _) ?_
    have : (aiv : ℚ) ≤ 6 := by exact_mod_cast haiv
    linarith

/-- **C6 counterexample.** The quantity score is *not* monotonically
non-decreasing in the human-study count with animal/in-vitro counts held
fixed: with 8 animal studies, 0 human studies score 4.0 while 1 human study
scores 3.0. -/
theorem score_quantity_not_monotone :
    score_quantity { animal_studies := 8 } = 4 ∧
    score_quantity { animal_studies := 8, human_other := 1 } = 3 ∧
    ¬ (score_quantity { animal_studies := 8 } ≤
        score_quantity { animal_studies := 8, human_other := 1 }) := by
  refine ⟨?_, ?_, ?_⟩ <;> norm_num [score_quantity, qstep]

/-- **C6 (amended).** The quantity score follows the specified step function:
zero human studies → `min(4.0, 0.5 × (animal + in-vitro))`; otherwise
count < 3 → count × 3; 3–4 → 6 + (count − 3) × 1; 5–9 → 8 + (count − 5) × 0.4;
≥ 10 → 10.  It is monotonically non-decreasing in the human-study count
(human RCTs + other human + meta-analyses), holding animal and in-vitro
counts fixed, *provided* the smaller human count is at least 1 or the animal
plus in-vitro count is at most 6 (with ≥ 7 non-human studies, moving from 0
to 1 human study drops the score from 4.0 towards 3.0). -/
theorem score_quantity_step_and_mono :
    (∀ b : ScoreBreakdown, score_quantity b =
      qstep (b.human_rcts + b.human_other + b.meta_analyses)
        (b.animal_studies + b.in_vitro_studies)) ∧
    (∀ h aiv : Nat,
      (h = 0 → qstep h aiv = min 4 ((aiv : ℚ) * 0.5)) ∧
      (1 ≤ h → h < 3 → qstep h aiv = (h : ℚ) * 3) ∧
      (3 ≤ h → h ≤ 4 → qstep h aiv = 6 + ((h : ℚ) - 3) * 1) ∧
      (5 ≤ h → h ≤ 9 → qstep h aiv = 8 + ((h : ℚ) - 5) * 0.4) ∧
      (10 ≤ h → qstep h aiv = 10)) ∧
    (∀ aiv h1 h2 : Nat, h1 ≤ h2 → (1 ≤ h1 ∨ aiv ≤ 6) →
      qstep h1 aiv ≤ qstep h2 aiv) := by
  refine ⟨fun b => rfl, fun h aiv => ⟨?_, ?_, ?_, ?_, ?_⟩, ?_⟩
  · rintro rfl
    by_cases h0 : aiv = 0
    · norm_num [qstep, h0]
    · simp [qstep, h0]
  · intro hpos hlt
    simp only [qstep]
    rw [if_neg (by omega), if_neg (by omega), if_neg (by omega), if_neg (by omega)]
  · intro h3 h4
    simp only [qstep]
    rw [if_neg (by omega), if_neg (by omega), if_neg (by omega), if_pos (by omega)]
  · intro h5 h9
    simp only [qstep]
    rw [if_neg (by omega), if_neg (by omega), if_pos (by omega)]
  · intro h10
    simp only [qstep]
    rw [if_neg (by omega), if_pos (by omega)]
  · intro aiv h1 h2 hle hcond
    rcases Nat.eq_zero_or_pos h1 with rfl | hpos
    · rcases Nat.eq_zero_or_pos h2 with rfl | hpos2
      · exact le_refl _
      · rcases hcond with hc | hc
        · omega
        · exact le_trans (qstep_zero_le aiv hc) (qstep_lower_bound aiv h2 hpos2)
    · exact qstep_mono_of_pos aiv hle hpos

/-- Witness for the amended C6 at concrete counts. -/
theorem score_quantity_step_and_mono_witness :
    qstep 2 0 = 6 ∧ qstep 7 0 = 8.8 ∧ qstep 3 5 ≤ qstep 12 5 := by
  refine ⟨?_, ?_, ?_⟩
  · have := ((score_quantity_step_and_mono.2.1 2 0).2.1 (by norm_num) (by norm_num))
    rw [this]; norm_num
  · have := ((score_quantity_step_and_mono.2.1 7 0).2.2.2.1 (by norm_num) (by norm_num))
    rw [this]; norm_num
  · exact score_quantity_step_and_mono.2.2 5 3 12 (by norm_num) (Or.inl (by norm_num))

/-- **C7.** The recency score is the step function of years since the most
recent study: ≤2 → 10.0; ≤5 → 8.0; ≤10 → 6.0; ≤15 → 4.0; >15 → 2.0; no
publication year anywhere → neutral 5.0.  On the 11–15-year branch the
penalty message "Research is 10-15 years old" is never appended (the source's
append follows an unconditional `return`), while the >15-year branch does
append its penalty message. -/
theorem score_recency_spec :
    score_recency none = (5, []) ∧
    (∀ y : Int,
      (y ≤ 2 → score_recency (some y) = (10, [])) ∧
      (2 < y → y ≤ 5 → score_recency (some y) = (8, [])) ∧
      (5 < y → y ≤ 10 → score_recency (some y) = (6, [])) ∧
      (10 < y → y ≤ 15 → score_recency (some y) = (4, [])) ∧
      (15 < y → score_recency (some y) = (2, ["Research is over 15 years old"]))) ∧
    (∀ x : Option Int, "Research is 10-15 years old" ∉ (score_recency x).2) := by
  refine ⟨rfl, fun y => ⟨?_, ?_, ?_, ?_, ?_⟩, ?_⟩
  · intro h
    simp only [score_recency]
    rw [if_pos h]
  · intro h1 h2
    simp only [score_recency]
    rw [if_neg (by omega), if_pos h2]
  · intro h1 h2
    simp only [score_recency]
    rw [if_neg (by omega), if_neg (by omega), if_pos h2]
  · intro h1 h2
    simp only [score_recency]
    rw [if_neg (by omega), if_neg (by omega), if_neg (by omega), if_pos h2]
  · intro h1
    simp only [score_recency]
    rw [if_neg (by omega), if_neg (by omega), if_neg (by omega), if_neg (by omega)]
  · intro x
    match x with
    | none => simp [score_recency]
    | some y =>
      simp only [score_recency]
      split_ifs <;> simp

/-- Witness for C7 at concrete year gaps. -/
theorem score_recency_spec_witness :
    score_recency (some 12) = (4, []) ∧
    score_recency (some 20) = (2, ["Research is over 15 years old"]) := by
  constructor
  · exact (score_recency_spec.2.1 12).2.2.2.1 (by norm_num) (by norm_num)
  · exact (score_recency_spec.2.1 20).2.2.2.2 (by norm_num)

/-- A term whose title, abstract and MeSH searches all fail leaves the
relevance accumulator unchanged. -/
theorem scoreTermStep_no_match (title abstract mesh : List Char)
    (acc : ℚ × List (List Char)) (term : List Char)
    (h1 : searchWW term title = false) (h2 : countWW term abstract = 0)
    (h3 : searchWW term mesh = false) :
    scoreTermStep title abstract mesh acc term = acc := by
  simp [scoreTermStep, h1, h2, h3]

/-- The score component of one relevance-loop iteration adds exactly the
spec's per-term contribution. -/
theorem scoreTermStep_fst (title abstract mesh : List Char)
    (acc : ℚ × List (List Char)) (term : List Char) :
    (scoreTermStep title abstract mesh acc term).1 =
      acc.1 + termContrib title abstract mesh term := by
  simp only [scoreTermStep, termContrib]
  split_ifs <;> simp_all <;> ring

/-- The matched-terms component of one relevance-loop iteration appends the
term iff any of the three locations matched. -/
theorem scoreTermStep_snd (title abstract mesh : List Char)
    (acc : ℚ × List (List Char)) (term : List Char) :
    (scoreTermStep title abstract mesh acc term).2 =
      acc.2 ++ (if searchWW term title ∨ 0 < countWW term abstract ∨
          searchWW term mesh then [term] else []) := by
  simp only [scoreTermStep]
  split_ifs <;> simp_all

/-- The relevance fold accumulates the sum of per-term contributions. -/
theorem relevanceFold_fst (title abstract mesh : List Char)
    (terms : List (List Char)) :
    ∀ acc : ℚ × List (List Char),
      (terms.foldl (scoreTermStep title abstract mesh) acc).1 =
        acc.1 + (terms.map (termContrib title abstract mesh)).sum := by
  induction terms with
  | nil => intro acc; simp
  | cons t ts ih =>
    intro acc
    rw [List.foldl_cons, ih, scoreTermStep_fst]
    simp
    ring

/-- The relevance fold collects exactly the terms matching somewhere. -/
theorem relevanceFold_snd (title abstract mesh : List Char)
    (terms : List (List Char)) :
    ∀ acc : ℚ × List (List Char),
      (terms.foldl (scoreTermStep title abstract mesh) acc).2 =
        acc.2 ++ terms.filter (fun term =>
          searchWW term title || decide (0 < countWW term abstract) ||
            searchWW term mesh) := by
  induction terms with
  | nil => intro acc; simp
  | cons t ts ih =>
    intro acc
    rw [List.foldl_cons, ih, scoreTermStep_snd]
    have hiff : (searchWW t title ∨ 0 < countWW t abstract ∨ searchWW t mesh) ↔
        (searchWW t title || decide (0 < countWW t abstract) ||
          searchWW t mesh) = true := by
      simp [or_assoc]
    by_cases h : (searchWW t title || decide (0 < countWW t abstract) ||
        searchWW t mesh) = true
    · rw [if_pos (hiff.mpr h)]
      simp [List.filter_cons, h]
    · rw [if_neg (fun hh => h (hiff.mp hh))]
      simp [List.filter_cons, h]

/-- **C4.** For every study record and every list of search terms, the
relevance score computed by `RelevanceFilter._score_study` equals the sum
over all terms of the spec's contributions — +0.5 for a whole-word title
match, +0.3 per whole-word abstract occurrence capped at +0.6 per term, +0.2
for a whole-word MeSH match — with the total capped at 1.0. -/
theorem score_study_additive (study : PubMedStudy)
    (terms : List (List Char)) :
    (score_study study terms).1 =
      min ((terms.map (specTermContrib study)).sum) 1 := by
  have hfst := relevanceFold_fst (lowerL study.title)
    (lowerL (study.abstract.getD []))
    (lowerL (List.intercalate [' '] study.mesh_terms)) terms (0, [])
  have hsnd := relevanceFold_snd (lowerL study.title)
    (lowerL (study.abstract.getD []))
    (lowerL (List.intercalate [' '] study.mesh_terms)) terms (0, [])
  rw [zero_add] at hfst
  rw [List.nil_append] at hsnd
  simp only [score_study]
  by_cases hmt : (terms.foldl
      (scoreTermStep (lowerL study.title) (lowerL (study.abstract.getD []))
        (lowerL (List.intercalate [' '] study.mesh_terms))) (0, [])).2 = []
  · rw [if_pos hmt]
    rw [hmt] at hsnd
    have hall : ∀ term ∈ terms, (searchWW term (lowerL study.title) ||
        decide (0 < countWW term (lowerL (study.abstract.getD []))) ||
        searchWW term (lowerL (List.intercalate [' '] study.mesh_terms))) = false := by
      intro term hterm
      have := List.filter_eq_nil_iff.mp hsnd.symm term hterm
      simpa using this
    have hzero : (terms.map (specTermContrib study)).sum = 0 := by
      apply List.sum_eq_zero
      intro x hx
      obtain ⟨term, hterm, rfl⟩ := List.mem_map.mp hx
      have h3 := hall term hterm
      simp only [Bool.or_eq_false_iff, decide_eq_false_iff_not] at h3
      simp [specTermContrib, termContrib, h3.1.1, h3.1.2, h3.2]
    rw [hzero]
    norm_num
  · rw [if_neg hmt, hfst]
    rfl

/-- **C3 counterexample.** A record containing none of the search terms gets
relevance score exactly 0, but with the configured minimum-relevance
threshold equal to 0 the score comparison `score >= min_relevance_score`
succeeds and `filter_studies` *retains* the record instead of excluding it. -/
theorem relevance_zero_kept_at_zero_threshold :
    (score_study stNoMatch (build_search_terms nameNoMatch [])).1 = 0 ∧
    filter_studies 0 [stNoMatch] nameNoMatch [] ≠ [] := by
  constructor
  · decide
  · decide

/-- **C3 (amended).** If no search term (entity name or alias) has a
whole-word match in a record's title, abstract, or MeSH terms, then
`RelevanceFilter` assigns the record relevance score exactly 0, and
`filter_studies` excludes it for every configured minimum-relevance
threshold *strictly greater than* 0 (at threshold exactly 0 the record is
retained, per the counterexample). -/
theorem relevance_no_match_zero_and_excluded
    (name : List Char) (aliases : List (List Char)) (st : PubMedStudy)
    (hnm : ∀ t ∈ build_search_terms name aliases,
      searchWW t (lowerL st.title) = false ∧
      countWW t (lowerL (st.abstract.getD [])) = 0 ∧
      searchWW t (lowerL (List.intercalate [' '] st.mesh_terms)) = false) :
    (score_study st (build_search_terms name aliases)).1 = 0 ∧
    ∀ thr : ℚ, 0 < thr → ∀ rest : List PubMedStudy,
      filter_studies thr (st :: rest) name aliases =
        filter_studies thr rest name aliases := by
  have hfold : (build_search_terms name aliases).foldl
      (scoreTermStep (lowerL st.title) (lowerL (st.abstract.getD []))
        (lowerL (List.intercalate [' '] st.mesh_terms))) (0, []) = (0, []) := by
    generalize hT : build_search_terms name aliases = T at hnm
    clear hT
    induction T with
    | nil => rfl
    | cons t ts ih =>
      have ht := hnm t (by simp)
      rw [List.foldl_cons,
        scoreTermStep_no_match _ _ _ _ _ ht.1 ht.2.1 ht.2.2]
      exact ih fun t' ht' => hnm t' (by simp [ht'])
  have hscore : score_study st (build_search_terms name aliases) = (0, []) := by
    simp [score_study, hfold]
  refine ⟨by rw [hscore], ?_⟩
  intro thr hthr rest
  have hnle : ¬ (thr ≤ (0 : ℚ)) := not_le.mpr hthr
  simp [filter_studies, List.filterMap_cons, hscore, hnle]

/-- Witness for the amended C3 at a concrete no-match record and threshold. -/
theorem relevance_no_match_zero_and_excluded_witness :
    (score_study stNoMatch (build_search_terms nameNoMatch [])).1 = 0 ∧
    filter_studies 0.5 [stNoMatch] nameNoMatch [] =
      filter_studies 0.5 [] nameNoMatch [] := by
  have h := relevance_no_match_zero_and_excluded nameNoMatch [] stNoMatch
    (by decide)
  exact ⟨h.1, h.2 0.5 (by norm_num) []⟩

/-- The pattern loop of `_extract_sample_size` is first-pattern-wins: it
returns, for the first pattern whose `findall` yields an in-range integer,
the maximum of that pattern's in-range integers. -/
theorem extractLoop_findSome (l : List Char)
    (ps : List (List Char → Option (Nat × List Char))) :
    extractLoop l ps = ps.findSome? fun p =>
      let numbers := (findAllP p l).filter fun n =>
        decide (5 < n) && decide (n < 100000)
      if numbers = [] then none else some (maxNat numbers) := by
  induction ps with
  | nil => rfl
  | cons p ps ih =>
    simp only [extractLoop, List.findSome?_cons]
    by_cases hf : findAllP p l = []
    · simp [hf, ih]
    · by_cases hn : (findAllP p l).filter
          (fun n => decide (5 < n) && decide (n < 100000)) = []
      · simp [hf, hn, ih]
      · simp [hf, hn]

/-- **C8 counterexample.** On the abstract "n = 10 and 500 participants" the
source's `_extract_sample_size` returns 10 — the maximum over the *first*
pattern (`n = N`) that yields a valid integer — whereas the claim's
description (collect all matched integers strictly between 5 and 100000
across the ordered patterns, return the maximum of all of them) yields 500
from the second pattern. -/
theorem extract_sample_size_first_pattern_wins :
    extract_sample_size exAbstract = some 10 ∧
    extractAllMax exAbstract = some 500 ∧
    extract_sample_size exAbstract ≠ extractAllMax exAbstract := by
  refine ⟨by decide, by decide, by decide⟩

/-- **C8 (amended).** Sample-size extraction scans the lowered abstract with
the ordered numeric-context patterns; for the *first* pattern (in order)
whose matches include at least one integer strictly between 5 and 100000 it
returns the maximum of that pattern's in-range integers, and it returns null
when no pattern yields one (later patterns' matches are never consulted once
an earlier pattern has produced a valid integer). -/
theorem extract_sample_size_amended (abstract : List Char) :
    extract_sample_size abstract = samplePatterns.findSome? fun p =>
      let numbers := (findAllP p (lowerL abstract)).filter fun n =>
        decide (5 < n) && decide (n < 100000)
      if numbers = [] then none else some (maxNat numbers) :=
  extractLoop_findSome (lowerL abstract) samplePatterns

/-- Witness for the amended C8 at the concrete abstract. -/
theorem extract_sample_size_amended_witness :
    extract_sample_size exAbstract = samplePatterns.findSome? fun p =>
      let numbers := (findAllP p (lowerL exAbstract)).filter fun n =>
        decide (5 < n) && decide (n < 100000)
      if numbers = [] then none else some (maxNat numbers) :=
  extract_sample_size_amended exAbstract

/-- A claim-table fold in which no key matches leaves the accumulator
unchanged. -/
theorem foldl_no_key (claim_lower : List Char)
    (table : List (List Char × List (List Char)))
    (h : ∀ kv ∈ table, isSubstrB kv.1 claim_lower = false) :
    ∀ acc, table.foldl (fun acc kv =>
      if isSubstrB kv.1 claim_lower then acc ++ kv.2 else acc) acc = acc := by
  induction table with
  | nil => intro acc; rfl
  | cons kv rest ih =>
    intro acc
    rw [List.foldl_cons]
    have hkv := h kv (by simp)
    rw [if_neg (by simp [hkv])]
    exact ih (fun kv' h' => h kv' (by simp [h'])) acc

/-- **C9.** When no keyword of the fixed claim-keyword table occurs as a
lower-cased substring of the claim text, the claim-term extraction falls
back to the claim's own significant words — words longer than 3 characters
not in the stop-word set — capped at 3 terms; when a keyword does match, the
mapped expanded terms are used: "increases testosterone" yields exactly
[testosterone, androgen, luteinizing hormone] both through
`get_search_terms_for_claim` and through `_parse_claim`. -/
theorem get_search_terms_spec :
    (∀ claim_text : List Char,
      (∀ kv ∈ CLAIM_SEARCH_TERMS, isSubstrB kv.1 (lowerL claim_text) = false) →
      get_search_terms_for_claim claim_text =
        (significantWords claim_text).take 3) ∧
    get_search_terms_for_claim ("increases testosterone".toList) =
      ["testosterone".toList, "androgen".toList,
        "luteinizing hormone".toList] ∧
    parse_claim ("increases testosterone".toList) =
      ["testosterone".toList, "androgen".toList,
        "luteinizing hormone".toList] := by
  refine ⟨?_, by decide, by decide⟩
  intro claim_text h
  simp only [get_search_terms_for_claim]
  rw [foldl_no_key (lowerL claim_text) CLAIM_SEARCH_TERMS h []]
  simp

/-- Witness for C9 at a concrete claim with no table keyword. -/
theorem get_search_terms_spec_witness :
    get_search_terms_for_claim ("boosts vigor despite everything whatsoever".toList) =
      (significantWords ("boosts vigor despite everything whatsoever".toList)).take 3 :=
  get_search_terms_spec.1 ("boosts vigor despite everything whatsoever".toList)
    (by decide)

/-- **C10.** The trend-level aggregate score is the arithmetic mean of the
trend's claims' `evidence_score` values ignoring nulls, and the trend grade
comes from a threshold table with exactly 8 tiers (≥9 A+, ≥8 A, ≥7 B+, ≥6 B,
≥5 C+, ≥4 C, ≥3 D, else F), distinct from the 11-tier claim-level table
(e.g. they disagree at score 8.5). -/
theorem trend_score_and_grade_spec :
    (∀ scores : List (Option ℚ),
      trend_score (none :: scores) = trend_score scores) ∧
    (∀ (scores : List (Option ℚ)) (xs : List ℚ),
      scores.filterMap id = xs → xs ≠ [] →
      trend_score scores = some (xs.sum / xs.length)) ∧
    (∀ s : ℚ,
      (9 ≤ s → trend_grade s = "A+") ∧
      (8 ≤ s ∧ s < 9 → trend_grade s = "A") ∧
      (7 ≤ s ∧ s < 8 → trend_grade s = "B+") ∧
      (6 ≤ s ∧ s < 7 → trend_grade s = "B") ∧
      (5 ≤ s ∧ s < 6 → trend_grade s = "C+") ∧
      (4 ≤ s ∧ s < 5 → trend_grade s = "C") ∧
      (3 ≤ s ∧ s < 4 → trend_grade s = "D") ∧
      (s < 3 → trend_grade s = "F")) ∧
    trend_grade 8.5 ≠ score_to_grade 8.5 := by
  refine ⟨?_, ?_, ?_, ?_⟩
  · intro scores
    simp [trend_score]
  · intro scores xs hxs hne
    simp only [trend_score, hxs]
    rw [if_neg hne]
  · intro s
    refine ⟨?_, ?_, ?_, ?_, ?_, ?_, ?_, ?_⟩
    · intro h; unfold trend_grade; rw [if_pos h]
    · rintro ⟨h1, h2⟩; unfold trend_grade
      rw [if_neg (by linarith), if_pos h1]
    · rintro ⟨h1, h2⟩; unfold trend_grade
      rw [if_neg (by linarith), if_neg (by linarith), if_pos h1]
    · rintro ⟨h1, h2⟩; unfold trend_grade
      rw [if_neg (by linarith), if_neg (by linarith), if_neg (by linarith),
        if_pos h1]
    · rintro ⟨h1, h2⟩; unfold trend_grade
      rw [if_neg (by linarith), if_neg (by linarith), if_neg (by linarith),
        if_neg (by linarith), if_pos h1]
    · rintro ⟨h1, h2⟩; unfold trend_grade
      rw [if_neg (by linarith), if_neg (by linarith), if_neg (by linarith),
        if_neg (by linarith), if_neg (by linarith), if_pos h1]
    · rintro ⟨h1, h2⟩; unfold trend_grade
      rw [if_neg (by linarith), if_neg (by linarith), if_neg (by linarith),
        if_neg (by linarith), if_neg (by linarith), if_neg (by linarith),
        if_pos h1]
    · intro h; unfold trend_grade
      rw [if_neg (by linarith), if_neg (by linarith), if_neg (by linarith),
        if_neg (by linarith), if_neg (by linarith), if_neg (by linarith),
        if_neg (by linarith)]
  · have h1 : trend_grade 8.5 = "A" := by
      unfold trend_grade
      rw [if_neg (by norm_num), if_pos (by norm_num)]
    have h2 : score_to_grade 8.5 = "A-" := by
      unfold score_to_grade
      rw [if_neg (by norm_num), if_neg (by norm_num), if_pos (by norm_num)]
    rw [h1, h2]
    decide

/-- Witness for C10 at concrete scores. -/
theorem trend_score_and_grade_spec_witness :
    trend_score [some 8, none, some 6] = some (([8, 6] : List ℚ).sum / ([8, 6] : List ℚ).length) ∧
    trend_grade 6.5 = "B" := by
  constructor
  · exact trend_score_and_grade_spec.2.1 [some 8, none, some 6] [8, 6]
      (by simp) (by simp)
  · exact (trend_score_and_grade_spec.2.2.1 6.5).2.2.2.1 ⟨by norm_num, by norm_num⟩

/-- Concrete study used by witnesses of the universally quantified claims. -/
def ssEx : StudySummary :=
  { study_type := .rct, is_human := true, sample_size := some 20,
    publication_year := some 2024, supports_claim := some "yes" }

/-- Witness for C1 at a concrete study list. -/
theorem score_claim_final_score_in_range_witness :
    0 ≤ (score_claim 2025 [ssEx]).final_score ∧
      (score_claim 2025 [ssEx]).final_score ≤ 10 :=
  score_claim_final_score_in_range 2025 [ssEx]

/-- Witness for C2 at the default current year. -/
theorem score_claim_empty_input_witness :
    score_claim 2025 [] = { grade := "F", penalties := ["No studies found"] } :=
  score_claim_empty_input 2025

/-- Witness for C4 at a concrete record and term list. -/
theorem score_study_additive_witness :
    (score_study stNoMatch (build_search_terms nameNoMatch [])).1 =
      min (((build_search_terms nameNoMatch []).map
        (specTermContrib stNoMatch)).sum) 1 :=
  score_study_additive stNoMatch (build_search_terms nameNoMatch [])
